import Mathlib

/-!
Verification development for the CircularMetals backend (`app.py`).

The file shallowly embeds the decision logic of the repository:
the assessment scoring handler `run_assessment` (`POST /api/assessment`),
the environmental-impact dataset (`GET /api/environmental-impact`) and the
CSV export handler `export_report_csv` (`POST /api/reports/export`).

Modelling conventions:
* Finite Python floats are modelled as exact rationals (`ℚ`); the formulas
  involved only add, subtract and scale by 0.3 / 0.2 / 0.1, and the claims
  about them concern the formulas, not IEEE-754 rounding of intermediate
  values.
* Python `round` is round-half-to-even returning an integer (`pyRound`);
  Python `int()` applied to a float truncates toward zero (`pyTrunc`).
* The JSON values that can sit under the two numeric keys are modelled by
  `JVal` (a string or a number), matching the spec's data model.
* `random.seed(str)` / `random.shuffle` from the Python standard library are
  modelled by `pyShuffle`: the Fisher-Yates loop of `random.shuffle`
  (descending indices, swap with a random index below) driven by a concrete
  deterministic generator seeded from the string.  The Mersenne-Twister /
  SHA-512 internals are replaced by a simple concrete generator; every claim
  about the shuffle depends only on it being a deterministic function of the
  seed string that permutes the list, never on the specific values drawn.
* A Python float value is modelled by `PyFloat`: an exact rational, or one of
  the non-finite values +inf, -inf, NaN.  `float(str)` is modelled by
  `pyFloatOfString`: surrounding whitespace, optional sign, the case-insensitive
  `inf`/`infinity`/`nan` spellings, and the decimal literal grammar with
  PEP 515 underscore grouping; a literal whose magnitude is at or beyond the
  IEEE-double rounding boundary 2^1024 - 2^970 overflows to ±inf, as CPython's
  correctly-rounding strtod does.  Finite values are kept as exact rationals:
  sub-double-range magnitudes are not flushed to zero and intermediate
  arithmetic on extreme finite magnitudes does not overflow in the model.
* A non-finite coerced operand makes `base_circularity` non-finite, so
  `round(base_circularity)` (app.py:76) raises OverflowError (±inf) or
  ValueError (NaN); like the ValueError from `float()` itself, this escapes
  the handler.  The embedding surfaces both as the `none` result of
  `run_assessment`.
-/

namespace CircularMetals

/-- A JSON scalar value as it can appear under a key of `processData`:
either a string or a number (numbers modelled as exact rationals). -/
inductive JVal where
  | str (s : String)
  | num (q : ℚ)
deriving DecidableEq

/-- Python truthiness for `JVal`: the empty string and the number 0 are
falsy, everything else is truthy (used by the `x or y` idioms in `app.py`). -/
def pyTruthy : JVal → Bool
  | .str s => if s = "" then false else true
  | .num q => if q = 0 then false else true

/-- Split a leading run of decimal digits off a character list, allowing the
PEP 515 underscore grouping (a single underscore between two digits, which is
dropped); returns the digits and the unconsumed rest. -/
def splitDigitsU : List Char → List Char × List Char
  | [] => ([], [])
  | c :: '_' :: c2 :: rest2 =>
    if c.isDigit then
      if c2.isDigit then
        let p := splitDigitsU (c2 :: rest2)
        (c :: p.1, p.2)
      else ([c], '_' :: c2 :: rest2)
    else ([], c :: '_' :: c2 :: rest2)
  | c :: cs =>
    if c.isDigit then
      let p := splitDigitsU cs
      (c :: p.1, p.2)
    else ([], c :: cs)

/-- Numeric value of a list of decimal digits, most significant first. -/
def natOfDigits (l : List Char) : ℕ :=
  l.foldl (fun a c => a * 10 + (c.toNat - 48)) 0

/-- Parse the optional exponent suffix of a float literal at the end of the
input; `[]` means exponent 0, otherwise `e`/`E`, optional sign, digits
(with PEP 515 underscore grouping). -/
def parseExpPart : List Char → Option ℤ
  | [] => some 0
  | c :: cs =>
    if c = 'e' ∨ c = 'E' then
      let p : ℤ × List Char :=
        match cs with
        | '+' :: r => (1, r)
        | '-' :: r => (-1, r)
        | r => (1, r)
      let d := splitDigitsU p.2
      if d.1 = [] ∨ d.2 ≠ [] then none
      else some (p.1 * (natOfDigits d.1 : ℤ))
    else none

/-- Parse the mantissa of a float literal: `digits`, `digits.digits`,
`digits.` or `.digits` (digit runs may use PEP 515 underscore grouping);
returns its value and the unconsumed rest. -/
def parseMantissa (l : List Char) : Option (ℚ × List Char) :=
  let ip := splitDigitsU l
  match ip.2 with
  | '.' :: r2 =>
    let fp := splitDigitsU r2
    if ip.1 = [] ∧ fp.1 = [] then none
    else some ((natOfDigits ip.1 : ℚ) + (natOfDigits fp.1 : ℚ) / ((10 ^ fp.1.length : ℕ) : ℚ), fp.2)
  | _ => if ip.1 = [] then none else some ((natOfDigits ip.1 : ℚ), ip.2)

/-- Strip leading and trailing whitespace from a character list. -/
def trimChars (cs : List Char) : List Char :=
  (((cs.dropWhile Char.isWhitespace).reverse.dropWhile Char.isWhitespace).reverse)

/-- A Python float value: an exact finite rational, or one of the non-finite
IEEE values +inf, -inf, NaN. -/
inductive PyFloat where
  | fin (q : ℚ)
  | inf
  | ninf
  | nan
deriving DecidableEq

/-- The IEEE-double round-to-nearest overflow boundary `2^1024 - 2^970`:
`float()` of a decimal literal whose magnitude is at or beyond it returns
±inf (the largest finite double is `2^1024 - 2^971`, and the tie at the
midpoint rounds to the even `2^1024`). -/
def infThreshold : ℚ :=
  ((2 ^ 1024 - 2 ^ 970 : ℕ) : ℚ)

/-- Model of CPython `float(s)` on a string: strip surrounding whitespace,
optional sign, then either the case-insensitive `inf`/`infinity`/`nan`
spellings or a decimal mantissa with optional exponent (PEP 515 underscores
allowed); a finite literal at or beyond `infThreshold` overflows to ±inf.
`none` models the `ValueError` raised on a non-numeric string.  Finite values
are exact rationals (sub-double-range magnitudes are not flushed to zero). -/
def pyFloatOfString (s : String) : Option PyFloat :=
  let cs := trimChars s.toList
  let p : Bool × List Char :=
    match cs with
    | '+' :: r => (false, r)
    | '-' :: r => (true, r)
    | r => (false, r)
  let low := p.2.map Char.toLower
  if low = ['i', 'n', 'f'] ∨ low = ['i', 'n', 'f', 'i', 'n', 'i', 't', 'y'] then
    some (if p.1 then PyFloat.ninf else PyFloat.inf)
  else if low = ['n', 'a', 'n'] then
    some PyFloat.nan
  else
    match parseMantissa p.2 with
    | none => none
    | some m =>
      match parseExpPart m.2 with
      | none => none
      | some e =>
        let mag : ℚ :=
          if 0 ≤ e then m.1 * ((10 ^ e.toNat : ℕ) : ℚ)
          else m.1 / ((10 ^ (-e).toNat : ℕ) : ℚ)
        if infThreshold ≤ mag then some (if p.1 then PyFloat.ninf else PyFloat.inf)
        else some (PyFloat.fin (if p.1 then -mag else mag))

/-- Model of Python `float(v)` on a `JVal`: numbers are (finite) as-is,
strings go through the float-literal grammar. -/
def pyFloatJ : JVal → Option PyFloat
  | .num q => some (.fin q)
  | .str s => pyFloatOfString s

/-- The finite rational of a `PyFloat`, if any. -/
def pyFinite : PyFloat → Option ℚ
  | .fin q => some q
  | _ => none

/-- Python `round(x)` on a real value: nearest integer, ties to even. -/
def pyRound (q : ℚ) : ℤ :=
  let f := ⌊q⌋
  let r := q - (f : ℚ)
  if r < 1 / 2 then f
  else if 1 / 2 < r then f + 1
  else if f % 2 = 0 then f else f + 1

/-- Python `int(x)` on a float value: truncation toward zero. -/
def pyTrunc (q : ℚ) : ℤ :=
  if 0 ≤ q then ⌊q⌋ else ⌈q⌉

/-- Python `str.lower()` restricted to the ASCII range, which is all the
comparisons in `run_assessment` need. -/
def pyLower (s : String) : String :=
  String.mk (s.data.map Char.toLower)

/-- The `processData` mapping of the assessment request, with the seven
expected keys of the spec's `ProcessInput` data model; `none` models key
absence.  The two numeric keys may carry any JSON scalar (`JVal`), the
string keys carry strings. -/
structure ProcessData where
  material : Option String
  production : Option String
  rawMaterial : Option JVal
  recycledContent : Option JVal
  energyUse : Option String
  transport : Option String
  endOfLife : Option String
deriving DecidableEq

/-- The fixed `expected_fields` list of `run_assessment` (app.py:55-63). -/
def expectedFields : List String :=
  ["material", "production", "rawMaterial", "recycledContent",
   "energyUse", "transport", "endOfLife"]

/-- Key membership `f in process_data` for the seven expected keys. -/
def fieldPresent (d : ProcessData) : String → Bool
  | "material" => d.material.isSome
  | "production" => d.production.isSome
  | "rawMaterial" => d.rawMaterial.isSome
  | "recycledContent" => d.recycledContent.isSome
  | "energyUse" => d.energyUse.isSome
  | "transport" => d.transport.isSome
  | "endOfLife" => d.endOfLife.isSome
  | _ => false

/-- `[f for f in expected_fields if f not in process_data]` (app.py:64). -/
def missingFieldsOf (d : ProcessData) : List String :=
  expectedFields.filter (fun f => !fieldPresent d f)

/-- `float(process_data.get(k, 50) or 0)` (app.py:66-67): absent key gives
the default 50; a present falsy value (empty string, 0) gives 0; a present
truthy value goes through `float`. -/
def pyFloatCoerce (v : Option JVal) : Option PyFloat :=
  match v with
  | none => some (.fin 50)
  | some w => if pyTruthy w then pyFloatJ w else some (.fin 0)

/-- The coerced value of a numeric field when the handler can actually use
it: `none` when `float()` raises ValueError on a non-numeric value, and also
when the coercion yields ±inf or NaN — a non-finite operand makes
`base_circularity` non-finite and `round()` at app.py:76 raise
(OverflowError / ValueError), so the handler produces no result either way. -/
def numFieldValue (v : Option JVal) : Option ℚ :=
  (pyFloatCoerce v).bind pyFinite

/-- `process_data.get(k, "") or dflt` (app.py:68-69): absent key or empty
string gives the default. -/
def pyOrStr (v : Option String) (dflt : String) : String :=
  match v with
  | none => dflt
  | some s => if s = "" then dflt else s

/-- Stand-in pseudo-random step (models one draw of Python's seeded
generator; a linear congruential step modulo 2^32). -/
def prngNext (st : ℕ) : ℕ :=
  (st * 1664525 + 1013904223) % 4294967296

/-- Stand-in deterministic seeding of the generator from a string
(models `random.seed(s)` being a deterministic function of `s`). -/
def prngInit (s : String) : ℕ :=
  s.foldl (fun a c => (a * 31 + c.toNat + 1) % 4294967296) 7

/-- Swap the elements at positions `i` and `j` of a list (out-of-range
indices leave the list unchanged). -/
def listSwap {α : Type} (l : List α) (i j : ℕ) : List α :=
  match l.get? i, l.get? j with
  | some x, some y => (l.set i y).set j x
  | _, _ => l

/-- The Fisher-Yates loop of `random.shuffle`: for the index descending from
`len(x)-1` to 1, swap `x[i]` with `x[j]` for a drawn `j ≤ i` (written with an
explicit `Nat.rec` so that the recursion reduces definitionally). -/
def shuffleAux {α : Type} (k : ℕ) : ℕ → List α → List α :=
  @Nat.rec (fun _ => ℕ → List α → List α)
    (fun _ l => l)
    (fun k ih st l => ih (prngNext st) (listSwap l (k + 1) (prngNext st % (k + 2))))
    k

/-- `random.seed(seed)` followed by `random.shuffle(l)` (app.py:81-88). -/
def pyShuffle {α : Type} (seed : String) (l : List α) : List α :=
  shuffleAux (l.length - 1) (prngInit seed) l

/-- The fixed 4-string recommendation catalog (app.py:82-87). -/
def recommendationCatalog : List String :=
  ["Increase recycled content to reduce virgin input dependency",
   "Optimize transport routes and prefer rail/sea logistics",
   "Adopt closed-loop water systems in processing",
   "Redesign product for easier disassembly and reuse"]

/-- The JSON result object of `run_assessment` (app.py:90-96). -/
structure AssessmentResult where
  circularityScore : ℤ
  environmentalScore : ℤ
  recommendations : List String
  missingParams : ℕ
  missingFields : List String
deriving DecidableEq

/-- The seed string of app.py:81:
`(process_data.get("material") or "") + (process_data.get("production") or "")`. -/
def seedString (d : ProcessData) : String :=
  pyOrStr d.material "" ++ pyOrStr d.production ""

/-- Body of `run_assessment` (app.py:68-96) after the two `float(...)`
coercions have produced `recycled` and `raw_material`. -/
def resultOf (d : ProcessData) (recycled raw_material : ℚ) : AssessmentResult :=
  let energy_use := pyOrStr d.energyUse "medium"
  let transpo := pyOrStr d.transport "road"
  let base0 : ℚ := 50 + (recycled - raw_material) * (3 / 10)
  let base1 : ℚ :=
    if pyLower energy_use = "low" ∨ pyLower energy_use = "renewable"
    then base0 + 10 else base0
  let base2 : ℚ :=
    if pyLower transpo = "rail" ∨ pyLower transpo = "sea"
    then base1 + 5 else base1
  let base_circularity : ℤ := max 0 (min 100 (pyRound base2))
  let environmental_score : ℤ :=
    max 0 (min 100 (60 + pyTrunc (recycled * (2 / 10) - raw_material * (1 / 10))))
  let recommendations := pyShuffle (seedString d) recommendationCatalog
  let missing_fields := missingFieldsOf d
  ⟨base_circularity, environmental_score, recommendations.take 4,
   max 0 missing_fields.length, missing_fields⟩

/-- The handler `run_assessment` (app.py:50-98) on a `processData` mapping:
`none` models an unhandled error escaping the handler (which Flask surfaces
as an HTTP 500) — either the `ValueError` from the `float(...)` coercions
(app.py:66-67), or, when a coerced operand is ±inf/NaN, the
OverflowError/ValueError that `round(base_circularity)` raises at app.py:76
(with finite operands kept exact, `base_circularity` is non-finite exactly
when an operand is). -/
def run_assessment (d : ProcessData) : Option AssessmentResult :=
  (pyFloatCoerce d.recycledContent).bind fun recycledF =>
    (pyFloatCoerce d.rawMaterial).bind fun rawF =>
      match recycledF, rawF with
      | .fin recycled, .fin raw_material => some (resultOf d recycled raw_material)
      | _, _ => none

/-- One row of the `GET /api/environmental-impact` dataset (app.py:102-107). -/
structure ImpactRow where
  name : String
  conventional : ℤ
  circular : ℤ
deriving DecidableEq

/-- The fixed dataset returned by `get_environmental_impact` (app.py:102-107). -/
def get_environmental_impact : List ImpactRow :=
  [⟨"CO2 Emissions", 850, 320⟩,
   ⟨"Energy Use", 1200, 680⟩,
   ⟨"Water Use", 400, 180⟩,
   ⟨"Waste Gen.", 200, 45⟩]

/-- A CSV cell of the export handler: the source rows mix strings and ints. -/
inductive Cell where
  | s (v : String)
  | n (v : ℤ)
deriving DecidableEq

/-- `str()` rendering of a cell, as `csv.writer` applies it. -/
def cellStr : Cell → String
  | .s v => v
  | .n v => toString v

/-- The fixed `rows` table of `export_report_csv` (app.py:142-148). -/
def export_rows : List (List Cell) :=
  [[.s "Metric", .s "Conventional", .s "Circular"],
   [.s "CO2 Emissions", .n 850, .n 320],
   [.s "Energy Use", .n 1200, .n 680],
   [.s "Water Use", .n 400, .n 180],
   [.s "Waste Gen.", .n 200, .n 45]]

/-- Minimal quoting of `csv.writer` (excel dialect): a field containing the
delimiter, the quote character or a line break is wrapped in double quotes
with inner quotes doubled. -/
def csvField (s : String) : String :=
  if s.toList.any (fun c => c == ',' || c == '\"' || c == '\n' || c == '\r')
  then "\"" ++ String.mk (s.toList.foldr
        (fun c acc => if c = '\"' then '\"' :: '\"' :: acc else c :: acc) []) ++ "\""
  else s

/-- `csv.writer(...).writerows(rows)` with the default excel dialect:
comma-separated fields, each row terminated by CRLF. -/
def csvOfRows (rows : List (List Cell)) : String :=
  String.join (rows.map fun row =>
    String.intercalate "," (row.map fun c => csvField (cellStr c)) ++ "\r\n")

/-- The CSV text produced by `export_report_csv` (app.py:150-155). -/
def export_report_csv : String :=
  csvOfRows export_rows

/-- Split a character stream into CRLF-terminated lines (the CRLF pair is
the separator; a trailing CRLF yields a final empty group). -/
def splitCRLF : List Char → List (List Char)
  | [] => [[]]
  | '\r' :: '\n' :: rest => [] :: splitCRLF rest
  | c :: rest =>
    match splitCRLF rest with
    | [] => [[c]]
    | g :: gs => (c :: g) :: gs

/-- Split a character stream on a separator character. -/
def splitOnChar (sep : Char) : List Char → List (List Char)
  | [] => [[]]
  | c :: rest =>
    match splitOnChar sep rest with
    | [] => [[c]]
    | g :: gs => if c = sep then [] :: g :: gs else (c :: g) :: gs

/-- The CRLF-terminated lines of a string, as strings. -/
def csvLines (s : String) : List String :=
  (splitCRLF s.toList).map fun cs => String.mk cs

/-- Decimal digit characters of a two-digit zero-padded field (`%02d` of
`strftime`, for values below 100). -/
def pad2 (n : ℕ) : List Char :=
  [Nat.digitChar (n / 10 % 10), Nat.digitChar (n % 10)]

/-- Decimal digit characters of the four-digit year field (`%Y` of
`strftime`, for years between 1000 and 9999). -/
def pad4 (n : ℕ) : List Char :=
  [Nat.digitChar (n / 1000 % 10), Nat.digitChar (n / 100 % 10),
   Nat.digitChar (n / 10 % 10), Nat.digitChar (n % 10)]

/-- The attachment filename of `export_report_csv` (app.py:156):
`circularmetals_report_` + `strftime("%Y%m%dT%H%M%SZ")` + `.csv`, as a
function of the UTC wall-clock fields captured at call time. -/
def exportFilename (y mo dy h mi s : ℕ) : String :=
  "circularmetals_report_" ++ String.mk (pad4 y ++ pad2 mo ++ pad2 dy)
    ++ "T" ++ String.mk (pad2 h ++ pad2 mi ++ pad2 s) ++ "Z.csv"

/-- The filename shape `circularmetals_report_\d{8}T\d{6}Z\.csv`. -/
def FilenameMatches (fn : String) : Prop :=
  ∃ d8 d6 : List Char,
    fn = "circularmetals_report_" ++ String.mk d8 ++ "T" ++ String.mk d6 ++ "Z.csv"
      ∧ d8.length = 8 ∧ d8.all Char.isDigit
      ∧ d6.length = 6 ∧ d6.all Char.isDigit

/-- Spec-side circularity formula, following the spec's words (§4.1):
`50 + (recycledContent - rawMaterial) * 0.3`, plus 10 for low/renewable
energy, plus 5 for rail/sea transport, rounded, clamped to [0,100]. -/
def specCircularity (recycledContent rawMaterial : ℚ) (energyUse transpo : String) : ℤ :=
  let score : ℚ := 50 + (recycledContent - rawMaterial) * (3 / 10)
    + (if pyLower energyUse = "low" ∨ pyLower energyUse = "renewable" then 10 else 0)
    + (if pyLower transpo = "rail" ∨ pyLower transpo = "sea" then 5 else 0)
  min 100 (max 0 (pyRound score))

/-- Spec-side environmental formula, following the spec's words (§4.1):
`60 + floor(recycledContent * 0.2 - rawMaterial * 0.1)` with the floor
realized as the truncating integer cast, clamped to [0,100]. -/
def specEnvironmental (recycledContent rawMaterial : ℚ) : ℤ :=
  min 100 (max 0 (60 + pyTrunc (recycledContent * (2 / 10) - rawMaterial * (1 / 10))))

/-- A present `processData` value on which the handler fails: truthy (so not
replaced by `or 0`) and either rejected by `float()` (ValueError) or accepted
as an infinity or NaN, on which the later `round()` raises. -/
def FailingPresent (v : Option JVal) : Prop :=
  ∃ w, v = some w ∧ pyTruthy w = true ∧
    (pyFloatJ w = none ∨ pyFloatJ w = some PyFloat.inf ∨
      pyFloatJ w = some PyFloat.ninf ∨ pyFloatJ w = some PyFloat.nan)

/-- The empty `processData` mapping `{}`. -/
def emptyPD : ProcessData :=
  ⟨none, none, none, none, none, none, none⟩

/-- The spec's worked example: recycledContent=80, rawMaterial=20,
energyUse="renewable", transport="rail". -/
def d83 : ProcessData :=
  ⟨none, none, some (.num 20), some (.num 80), some "renewable", some "rail", none⟩

/-- A mapping whose recycledContent is a non-numeric string. -/
def badPD : ProcessData :=
  ⟨none, none, none, some (.str "abc"), none, none, none⟩

/-- A mapping whose recycledContent is the numeric string "inf": `float()`
accepts it, and the handler then fails at `round()`. -/
def dInf : ProcessData :=
  ⟨none, none, none, some (.str "inf"), none, none, none⟩

/-- material="ab", production absent. -/
def dMatAB : ProcessData :=
  ⟨some "ab", none, none, none, none, none, none⟩

/-- material="a", production="b". -/
def dMatAProdB : ProcessData :=
  ⟨some "a", some "b", none, none, none, none, none⟩

/-- Same material/production as `emptyPD` but with a rawMaterial value. -/
def dRaw10 : ProcessData :=
  ⟨none, none, some (.num 10), none, none, none, none⟩

/-! ## Helper lemmas -/

theorem pyRound_intCast (n : ℤ) : pyRound ((n : ℤ) : ℚ) = n := by
  unfold pyRound
  rw [Int.floor_intCast]
  norm_num

theorem pyTrunc_intCast (n : ℤ) : pyTrunc ((n : ℤ) : ℚ) = n := by
  unfold pyTrunc
  rcases le_or_lt 0 ((n : ℚ)) with h | h
  · rw [if_pos h, Int.floor_intCast]
  · rw [if_neg (not_le.mpr h), Int.ceil_intCast]

theorem clamp_comm (x : ℤ) : max 0 (min 100 x) = min 100 (max 0 x) := by
  omega

/-- A numeric field has a usable value exactly when the coercion yields a
finite float. -/
theorem numFieldValue_eq_some {v : Option JVal} {q : ℚ} :
    numFieldValue v = some q ↔ pyFloatCoerce v = some (PyFloat.fin q) := by
  unfold numFieldValue
  rcases pyFloatCoerce v with _ | pf
  · simp
  · cases pf <;> simp [pyFinite]

/-- Inversion of a successful run of the handler. -/
theorem run_assessment_eq_some {d : ProcessData} {r : AssessmentResult} :
    run_assessment d = some r ↔
      ∃ rc raw : ℚ, numFieldValue d.recycledContent = some rc ∧
        numFieldValue d.rawMaterial = some raw ∧ r = resultOf d rc raw := by
  constructor
  · intro h
    rcases h1 : pyFloatCoerce d.recycledContent with _ | pf1
    · rw [run_assessment, h1] at h; simp at h
    · rcases h2 : pyFloatCoerce d.rawMaterial with _ | pf2
      · rw [run_assessment, h1, h2] at h; simp at h
      · rw [run_assessment, h1, h2] at h
        cases pf1 <;> cases pf2 <;> simp at h
        exact ⟨_, _, numFieldValue_eq_some.mpr h1, numFieldValue_eq_some.mpr h2, h.symm⟩
  · rintro ⟨rc, raw, h1, h2, rfl⟩
    rw [run_assessment, numFieldValue_eq_some.mp h1, numFieldValue_eq_some.mp h2]
    rfl

/-- The handler fails exactly when a numeric field has no usable value. -/
theorem run_assessment_eq_none {d : ProcessData} :
    run_assessment d = none ↔
      numFieldValue d.recycledContent = none ∨ numFieldValue d.rawMaterial = none := by
  rcases h1 : pyFloatCoerce d.recycledContent with _ | pf1
  · rw [run_assessment, h1]
    simp [numFieldValue, h1]
  · rcases h2 : pyFloatCoerce d.rawMaterial with _ | pf2
    · rw [run_assessment, h1, h2]
      cases pf1 <;> simp [numFieldValue, h1, h2, pyFinite]
    · rw [run_assessment, h1, h2]
      cases pf1 <;> cases pf2 <;> simp [numFieldValue, h1, h2, pyFinite]

/-- The float coercion of a numeric field yields no usable value exactly on a
present, truthy value that is non-numeric or parses to an infinity or NaN. -/
theorem numFieldValue_eq_none {v : Option JVal} :
    numFieldValue v = none ↔ FailingPresent v := by
  constructor
  · intro h
    rcases v with _ | w
    · simp [numFieldValue, pyFloatCoerce, pyFinite] at h
    · by_cases ht : pyTruthy w
      · refine ⟨w, rfl, ht, ?_⟩
        rcases hf : pyFloatJ w with _ | pf
        · exact Or.inl rfl
        · cases pf with
          | fin q => simp [numFieldValue, pyFloatCoerce, ht, hf, pyFinite] at h
          | inf => exact Or.inr (Or.inl rfl)
          | ninf => exact Or.inr (Or.inr (Or.inl rfl))
          | nan => exact Or.inr (Or.inr (Or.inr rfl))
      · simp [numFieldValue, pyFloatCoerce, ht, pyFinite] at h
  · rintro ⟨w, rfl, ht, hf⟩
    rcases hf with hf | hf | hf | hf <;>
      simp [numFieldValue, pyFloatCoerce, ht, hf, pyFinite]

theorem circ_if_arg (b : ℚ) (P Q : Prop) [Decidable P] [Decidable Q] :
    (if Q then (if P then b + 10 else b) + 5 else (if P then b + 10 else b))
      = b + (if P then (10 : ℚ) else 0) + (if Q then 5 else 0) := by
  split_ifs <;> ring

theorem resultOf_circularityScore (d : ProcessData) (rc raw : ℚ) :
    (resultOf d rc raw).circularityScore =
      max 0 (min 100 (pyRound
        (let e := pyOrStr d.energyUse "medium"
         let t := pyOrStr d.transport "road"
         let b0 : ℚ := 50 + (rc - raw) * (3 / 10)
         let b1 : ℚ := if pyLower e = "low" ∨ pyLower e = "renewable" then b0 + 10 else b0
         if pyLower t = "rail" ∨ pyLower t = "sea" then b1 + 5 else b1))) := rfl

/-! ## Concrete runs used by witnesses -/

theorem run_emptyPD : run_assessment emptyPD = some (resultOf emptyPD 50 50) := rfl

theorem run_d83 : run_assessment d83 = some (resultOf d83 80 20) := by
  rw [run_assessment,
    (by decide : pyFloatCoerce d83.recycledContent = some (PyFloat.fin 80)),
    (by decide : pyFloatCoerce d83.rawMaterial = some (PyFloat.fin 20))]
  rfl

theorem run_dRaw10 : run_assessment dRaw10 = some (resultOf dRaw10 50 10) := by
  rw [run_assessment,
    (rfl : pyFloatCoerce dRaw10.recycledContent = some (PyFloat.fin 50)),
    (by decide : pyFloatCoerce dRaw10.rawMaterial = some (PyFloat.fin 10))]
  rfl

theorem run_dMatAB : run_assessment dMatAB = some (resultOf dMatAB 50 50) := rfl

theorem run_dMatAProdB :
    run_assessment dMatAProdB = some (resultOf dMatAProdB 50 50) := rfl

/-! ## Claims -/

/-- C1: for every input mapping on which the assessment succeeds, the
circularity score equals the spec formula: clamp to [0,100] of
round(50 + (recycledContent - rawMaterial) * 0.3, plus 10 if energyUse is
"low"/"renewable" case-insensitively, plus 5 if transport is "rail"/"sea"
case-insensitively); the witness instantiates the spec's worked example,
whose score is 83. -/
theorem claim_C1 (d : ProcessData) (rc raw : ℚ) (r : AssessmentResult)
    (h1 : numFieldValue d.recycledContent = some rc)
    (h2 : numFieldValue d.rawMaterial = some raw)
    (hr : run_assessment d = some r) :
    r.circularityScore =
      specCircularity rc raw (pyOrStr d.energyUse "medium") (pyOrStr d.transport "road") := by
  rcases run_assessment_eq_some.mp hr with ⟨rc2, raw2, g1, g2, hrr⟩
  obtain rfl : rc = rc2 := Option.some.inj (h1.symm.trans g1)
  obtain rfl : raw = raw2 := Option.some.inj (h2.symm.trans g2)
  subst hrr
  simp only [resultOf, specCircularity]
  rw [circ_if_arg, clamp_comm]

theorem claim_C1_witness : (resultOf d83 (80 : ℚ) (20 : ℚ)).circularityScore = 83 := by
  have h1 : numFieldValue d83.recycledContent = some (80 : ℚ) := by decide
  have h2 : numFieldValue d83.rawMaterial = some (20 : ℚ) := by decide
  have hr : run_assessment d83 = some (resultOf d83 80 20) := by
    rw [run_assessment, numFieldValue_eq_some.mp h1, numFieldValue_eq_some.mp h2]; rfl
  rw [claim_C1 d83 80 20 (resultOf d83 80 20) h1 h2 hr]
  have he : pyOrStr d83.energyUse "medium" = "renewable" := by decide
  have ht : pyOrStr d83.transport "road" = "rail" := by decide
  rw [he, ht]
  simp only [specCircularity]
  rw [if_pos (by decide : pyLower "renewable" = "low" ∨ pyLower "renewable" = "renewable")]
  rw [if_pos (by decide : pyLower "rail" = "rail" ∨ pyLower "rail" = "sea")]
  rw [show (50 + ((80 : ℚ) - 20) * (3 / 10) + 10 + 5) = ((83 : ℤ) : ℚ) by norm_num]
  rw [pyRound_intCast]
  decide

/-- C2: for every input mapping on which the assessment succeeds, the
environmental score equals the spec formula: clamp to [0,100] of
60 + the truncating integer cast of (recycledContent * 0.2 - rawMaterial * 0.1);
the witness instantiates the empty mapping, whose score is 65. -/
theorem claim_C2 (d : ProcessData) (rc raw : ℚ) (r : AssessmentResult)
    (h1 : numFieldValue d.recycledContent = some rc)
    (h2 : numFieldValue d.rawMaterial = some raw)
    (hr : run_assessment d = some r) :
    r.environmentalScore = specEnvironmental rc raw := by
  rcases run_assessment_eq_some.mp hr with ⟨rc2, raw2, g1, g2, hrr⟩
  obtain rfl : rc = rc2 := Option.some.inj (h1.symm.trans g1)
  obtain rfl : raw = raw2 := Option.some.inj (h2.symm.trans g2)
  subst hrr
  simp only [resultOf, specEnvironmental]
  rw [clamp_comm]

theorem claim_C2_witness : (resultOf emptyPD (50 : ℚ) (50 : ℚ)).environmentalScore = 65 := by
  have h1 : numFieldValue emptyPD.recycledContent = some (50 : ℚ) := rfl
  have h2 : numFieldValue emptyPD.rawMaterial = some (50 : ℚ) := rfl
  rw [claim_C2 emptyPD 50 50 (resultOf emptyPD 50 50) h1 h2 run_emptyPD]
  simp only [specEnvironmental]
  rw [show ((50 : ℚ) * (2 / 10) - 50 * (1 / 10)) = ((5 : ℤ) : ℚ) by norm_num]
  rw [pyTrunc_intCast]
  decide

/-- C3 counterexample: a present but empty recycledContent value is coerced
to 0, not to the default 50 the claim states. -/
theorem claim_C3_cex :
    numFieldValue (some (JVal.str "")) = some 0 ∧
      ¬ numFieldValue (some (JVal.str "")) = some 50 := by
  decide

/-- C3 as amended: recycledContent and rawMaterial are parsed as floating
point; the default 50 applies only when the key is absent, while a present
but falsy value (empty string, 0) is coerced to 0, and a present truthy
value goes through float parsing. -/
theorem claim_C3_amended :
    pyFloatCoerce none = some (PyFloat.fin 50) ∧
      (∀ v : JVal, pyTruthy v = false → pyFloatCoerce (some v) = some (PyFloat.fin 0)) ∧
      (∀ v : JVal, pyTruthy v = true → pyFloatCoerce (some v) = pyFloatJ v) := by
  refine ⟨rfl, ?_, ?_⟩ <;> intro v h <;> simp [pyFloatCoerce, h]

/-! ## Shuffle permutation lemmas -/

theorem cons_get_set_perm {α : Type} :
    ∀ (t : List α) (k : ℕ) (x y : α), t.get? k = some y →
      List.Perm (y :: t.set k x) (x :: t)
  | [], _, _, _, h => by simp at h
  | a :: s, 0, x, y, h => by
    have ha : a = y := by simpa using h
    subst ha
    show List.Perm (a :: x :: s) (x :: a :: s)
    exact List.Perm.swap x a s
  | a :: s, k + 1, x, y, h => by
    have h' : s.get? k = some y := by simpa using h
    have ih := cons_get_set_perm s k x y h'
    show List.Perm (y :: a :: s.set k x) (x :: a :: s)
    exact (List.Perm.swap a y (s.set k x)).trans ((ih.cons a).trans (List.Perm.swap x a s))

theorem set_set_perm {α : Type} :
    ∀ (l : List α) (i j : ℕ) (x y : α), l.get? i = some x → l.get? j = some y →
      List.Perm ((l.set i y).set j x) l
  | [], _, _, _, _, hi, _ => by simp at hi
  | a :: t, 0, 0, x, y, hi, hj => by
    have hx : a = x := by simpa using hi
    have hy : a = y := by simpa using hj
    subst hx; subst hy
    exact List.Perm.refl _
  | a :: t, 0, j + 1, x, y, hi, hj => by
    have hx : a = x := by simpa using hi
    have hj' : t.get? j = some y := by simpa using hj
    subst hx
    show List.Perm (y :: t.set j a) (a :: t)
    exact cons_get_set_perm t j a y hj'
  | a :: t, i + 1, 0, x, y, hi, hj => by
    have hi' : t.get? i = some x := by simpa using hi
    have hy : a = y := by simpa using hj
    subst hy
    show List.Perm (x :: t.set i a) (a :: t)
    exact cons_get_set_perm t i a x hi'
  | a :: t, i + 1, j + 1, x, y, hi, hj => by
    have hi' : t.get? i = some x := by simpa using hi
    have hj' : t.get? j = some y := by simpa using hj
    show List.Perm (a :: (t.set i y).set j x) (a :: t)
    exact (set_set_perm t i j x y hi' hj').cons a

theorem listSwap_perm {α : Type} (l : List α) (i j : ℕ) :
    List.Perm (listSwap l i j) l := by
  unfold listSwap
  split
  · next x y hi hj => exact set_set_perm l i j x y hi hj
  · exact List.Perm.refl l

theorem shuffleAux_succ {α : Type} (k st : ℕ) (l : List α) :
    shuffleAux (k + 1) st l
      = shuffleAux k (prngNext st) (listSwap l (k + 1) (prngNext st % (k + 2))) := rfl

theorem shuffleAux_perm {α : Type} :
    ∀ (k st : ℕ) (l : List α), List.Perm (shuffleAux k st l) l := by
  intro k
  induction k with
  | zero => intro st l; exact List.Perm.refl l
  | succ k ih =>
    intro st l
    rw [shuffleAux_succ]
    exact (ih _ _).trans (listSwap_perm _ _ _)

theorem pyShuffle_perm {α : Type} (seed : String) (l : List α) :
    List.Perm (pyShuffle seed l) l :=
  shuffleAux_perm (l.length - 1) (prngInit seed) l

/-! ## Result projections -/

theorem resultOf_environmentalScore (d : ProcessData) (rc raw : ℚ) :
    (resultOf d rc raw).environmentalScore =
      max 0 (min 100 (60 + pyTrunc (rc * (2 / 10) - raw * (1 / 10)))) := rfl

theorem seedString_eq (d : ProcessData) :
    seedString d = pyOrStr d.material "" ++ pyOrStr d.production "" := rfl

theorem resultOf_recommendations (d : ProcessData) (rc raw : ℚ) :
    (resultOf d rc raw).recommendations =
      (pyShuffle (seedString d) recommendationCatalog).take 4 := by
  simp only [resultOf]

theorem resultOf_missingFields (d : ProcessData) (rc raw : ℚ) :
    (resultOf d rc raw).missingFields = missingFieldsOf d := rfl

theorem resultOf_missingParams (d : ProcessData) (rc raw : ℚ) :
    (resultOf d rc raw).missingParams = max 0 (missingFieldsOf d).length := rfl

/-- C4: the recommendations ordering is a deterministic function of the
material and production strings (each treated as the empty string when
absent), and for every successful run the recommendations list is a
permutation of the fixed 4-string catalog. -/
theorem claim_C4 :
    (∀ (d1 d2 : ProcessData) (r1 r2 : AssessmentResult),
      run_assessment d1 = some r1 → run_assessment d2 = some r2 →
      pyOrStr d1.material "" = pyOrStr d2.material "" →
      pyOrStr d1.production "" = pyOrStr d2.production "" →
      r1.recommendations = r2.recommendations) ∧
    (∀ (d : ProcessData) (r : AssessmentResult), run_assessment d = some r →
      List.Perm r.recommendations recommendationCatalog) := by
  constructor
  · intro d1 d2 r1 r2 hr1 hr2 hm hp
    rcases run_assessment_eq_some.mp hr1 with ⟨rc1, raw1, _, _, rfl⟩
    rcases run_assessment_eq_some.mp hr2 with ⟨rc2, raw2, _, _, rfl⟩
    rw [resultOf_recommendations, resultOf_recommendations, seedString_eq,
      seedString_eq, hm, hp]
  · intro d r hr
    rcases run_assessment_eq_some.mp hr with ⟨rc, raw, _, _, rfl⟩
    rw [resultOf_recommendations]
    have hp := pyShuffle_perm (seedString d) recommendationCatalog
    have hl : (pyShuffle (seedString d) recommendationCatalog).length = 4 :=
      hp.length_eq
    rw [show (4 : ℕ) = (pyShuffle (seedString d)
        recommendationCatalog).length from hl.symm, List.take_length]
    exact hp

theorem claim_C4_witness :
    (resultOf emptyPD (50 : ℚ) (50 : ℚ)).recommendations
        = (resultOf dRaw10 (50 : ℚ) (10 : ℚ)).recommendations ∧
      List.Perm (resultOf emptyPD (50 : ℚ) (50 : ℚ)).recommendations
        recommendationCatalog :=
  ⟨claim_C4.1 emptyPD dRaw10 _ _ run_emptyPD run_dRaw10 (by decide) (by decide),
   claim_C4.2 emptyPD _ run_emptyPD⟩

/-- C5: for every input mapping on which the assessment succeeds, both
returned scores are integers in [0,100]. -/
theorem claim_C5 (d : ProcessData) (r : AssessmentResult)
    (hr : run_assessment d = some r) :
    0 ≤ r.circularityScore ∧ r.circularityScore ≤ 100 ∧
      0 ≤ r.environmentalScore ∧ r.environmentalScore ≤ 100 := by
  rcases run_assessment_eq_some.mp hr with ⟨rc, raw, _, _, rfl⟩
  rw [resultOf_circularityScore, resultOf_environmentalScore]
  exact ⟨le_max_left _ _, max_le (by norm_num) (min_le_left _ _),
    le_max_left _ _, max_le (by norm_num) (min_le_left _ _)⟩

theorem claim_C5_witness :
    0 ≤ (resultOf emptyPD (50 : ℚ) (50 : ℚ)).circularityScore ∧
      (resultOf emptyPD (50 : ℚ) (50 : ℚ)).circularityScore ≤ 100 ∧
      0 ≤ (resultOf emptyPD (50 : ℚ) (50 : ℚ)).environmentalScore ∧
      (resultOf emptyPD (50 : ℚ) (50 : ℚ)).environmentalScore ≤ 100 :=
  claim_C5 emptyPD _ run_emptyPD

/-- C6: for every input mapping on which the assessment succeeds,
missingParams equals the number of the 7 expected keys absent from the
mapping, judged by key absence (isSome), not by falsy value. -/
theorem claim_C6 (d : ProcessData) (r : AssessmentResult)
    (hr : run_assessment d = some r) :
    r.missingParams =
      (if d.material.isSome then 0 else 1) + (if d.production.isSome then 0 else 1) +
      (if d.rawMaterial.isSome then 0 else 1) + (if d.recycledContent.isSome then 0 else 1) +
      (if d.energyUse.isSome then 0 else 1) + (if d.transport.isSome then 0 else 1) +
      (if d.endOfLife.isSome then 0 else 1) := by
  rcases run_assessment_eq_some.mp hr with ⟨rc, raw, _, _, rfl⟩
  rw [resultOf_missingParams]
  rcases d with ⟨m, p, rm, rcb, e, t, eo⟩
  cases m <;> cases p <;> cases rm <;> cases rcb <;> cases e <;> cases t <;> cases eo <;> rfl

theorem claim_C6_witness :
    (resultOf emptyPD (50 : ℚ) (50 : ℚ)).missingParams = 7 ∧
      (resultOf emptyPD (50 : ℚ) (50 : ℚ)).missingFields = expectedFields := by
  constructor
  · have h := claim_C6 emptyPD (resultOf emptyPD 50 50) run_emptyPD
    simpa using h
  · decide

/-- C7 counterexample: the string "inf" is numeric — CPython `float("inf")`
accepts it, returning an infinity — yet the assessment fails on it (the
non-finite value makes the later `round()` raise an OverflowError, not a
ValueError-class error at `float()`).  So the operation does not fail
"exactly when a present, non-empty value is non-numeric", and not every
other input returns a result. -/
theorem claim_C7_cex :
    pyFloatOfString "inf" = some PyFloat.inf ∧ run_assessment dInf = none := by
  constructor
  · decide
  · decide

/-- C7 as amended: the assessment fails exactly when a present, truthy
(non-empty, non-zero) recycledContent or rawMaterial value is either
non-numeric (float() raises ValueError) or accepted by float() as an
infinity or NaN — the inf/infinity/nan spellings, or a literal overflowing
the double range — on which the later round() raises OverflowError or
ValueError; the error is not handled inside the operation, and every other
input returns a result (finite values modelled as exact rationals, so
overflow of intermediate arithmetic on extreme finite magnitudes is outside
the model). -/
theorem claim_C7_amended (d : ProcessData) :
    run_assessment d = none ↔
      FailingPresent d.recycledContent ∨ FailingPresent d.rawMaterial := by
  rw [run_assessment_eq_none]
  exact or_congr numFieldValue_eq_none numFieldValue_eq_none

theorem claim_C7_witness : run_assessment badPD = none :=
  (claim_C7_amended badPD).mpr
    (Or.inl ⟨JVal.str "abc", rfl, by decide, Or.inl (by decide)⟩)

/-- C9: for every input mapping on which the assessment succeeds, the
debug missingFields list is a sublist of the fixed expected-field catalog
(so it enumerates absent fields in catalog order), its members are exactly
the absent expected fields, and missingParams equals its length. -/
theorem claim_C9 (d : ProcessData) (r : AssessmentResult)
    (hr : run_assessment d = some r) :
    r.missingFields.Sublist expectedFields ∧
      (∀ f, f ∈ r.missingFields ↔ f ∈ expectedFields ∧ fieldPresent d f = false) ∧
      r.missingParams = r.missingFields.length := by
  rcases run_assessment_eq_some.mp hr with ⟨rc, raw, _, _, rfl⟩
  rw [resultOf_missingFields, resultOf_missingParams, missingFieldsOf]
  refine ⟨List.filter_sublist _, ?_, ?_⟩
  · intro f
    simp [List.mem_filter]
  · simp

theorem claim_C9_witness :
    (resultOf d83 (80 : ℚ) (20 : ℚ)).missingFields.Sublist expectedFields ∧
      (∀ f, f ∈ (resultOf d83 (80 : ℚ) (20 : ℚ)).missingFields ↔
        f ∈ expectedFields ∧ fieldPresent d83 f = false) ∧
      (resultOf d83 (80 : ℚ) (20 : ℚ)).missingParams
        = (resultOf d83 (80 : ℚ) (20 : ℚ)).missingFields.length :=
  claim_C9 d83 _ run_d83

/-- C10: the recommendations ordering depends only on the concatenation of
material and production (each treated as the empty string when absent):
inputs with equal concatenations get the identical ordering even when the
pairs differ. -/
theorem claim_C10 (d1 d2 : ProcessData) (r1 r2 : AssessmentResult)
    (hr1 : run_assessment d1 = some r1) (hr2 : run_assessment d2 = some r2)
    (h : pyOrStr d1.material "" ++ pyOrStr d1.production ""
          = pyOrStr d2.material "" ++ pyOrStr d2.production "") :
    r1.recommendations = r2.recommendations := by
  rcases run_assessment_eq_some.mp hr1 with ⟨rc1, raw1, _, _, rfl⟩
  rcases run_assessment_eq_some.mp hr2 with ⟨rc2, raw2, _, _, rfl⟩
  rw [resultOf_recommendations, resultOf_recommendations, seedString_eq,
    seedString_eq, h]

theorem claim_C10_witness :
    (resultOf dMatAB (50 : ℚ) (50 : ℚ)).recommendations
      = (resultOf dMatAProdB (50 : ℚ) (50 : ℚ)).recommendations :=
  claim_C10 dMatAB dMatAProdB _ _ run_dMatAB run_dMatAProdB (by decide)

theorem digitChar_mod_isDigit (n : ℕ) : (Nat.digitChar (n % 10)).isDigit = true := by
  have h : n % 10 < 10 := Nat.mod_lt _ (by norm_num)
  revert h
  generalize n % 10 = k
  intro h
  interval_cases k <;> decide

/-- C8: the export produces the CSV text of exactly 5 CRLF-terminated lines
(header `Metric,Conventional,Circular` plus 4 data rows), each line with
exactly 3 comma-separated fields, the data rows identical to the
Environmental Impact dataset; and the attachment filename matches
`circularmetals_report_\d{8}T\d{6}Z\.csv` for every wall-clock instant in
the modelled strftime regime. -/
theorem claim_C8 :
    csvLines export_report_csv =
      ["Metric,Conventional,Circular", "CO2 Emissions,850,320", "Energy Use,1200,680",
       "Water Use,400,180", "Waste Gen.,200,45", ""] ∧
    (∀ line ∈ (csvLines export_report_csv).dropLast,
      (splitOnChar ',' line.toList).length = 3) ∧
    ((csvLines export_report_csv).dropLast).tail
      = get_environmental_impact.map
          (fun i => i.name ++ "," ++ toString i.conventional ++ "," ++ toString i.circular) ∧
    (∀ y mo dy h mi s : ℕ, 1000 ≤ y → y ≤ 9999 → mo ≤ 12 → dy ≤ 31 →
      h ≤ 23 → mi ≤ 59 → s ≤ 59 →
      FilenameMatches (exportFilename y mo dy h mi s)) := by
  refine ⟨by decide, by decide, by decide, ?_⟩
  intro y mo dy h mi s _ _ _ _ _ _ _
  refine ⟨pad4 y ++ pad2 mo ++ pad2 dy, pad2 h ++ pad2 mi ++ pad2 s, rfl, ?_, ?_, ?_, ?_⟩
  · simp [pad4, pad2]
  · simp [pad4, pad2, digitChar_mod_isDigit]
  · simp [pad4, pad2]
  · simp [pad4, pad2, digitChar_mod_isDigit]

theorem claim_C8_witness : FilenameMatches (exportFilename 2026 10 12 3 4 5) :=
  claim_C8.2.2.2 2026 10 12 3 4 5 (by norm_num) (by norm_num) (by norm_num)
    (by norm_num) (by norm_num) (by norm_num) (by norm_num)

end CircularMetals
